import Mathlib

/-!
Verification development for the `pentair_cloud_concurrent` integration.

The definitions below are a shallow embedding of the Python sources
`custom_components/pentair_cloud/pentaircloud_modified.py` (hub, device
registry, status poller, command dispatcher) and
`custom_components/pentair_cloud/fan.py` (pump fan entity with heater
safety, debounced speed changes and percentage-to-program mapping).
Python integers are modelled as `Int`, `None` as `Option.none`, raw
tenths fields (`s19`, `s26`, divided by 10 in the source) as `Rat`.
Remote I/O is modelled by passing the decoded response as an explicit
argument; a transport or JSON error is an explicit constructor.
-/

namespace PentairCloud

/-- Embedding of class `PentairPumpProgram` (pentaircloud_modified.py).
`running` is stored exactly as the source stores it: it is assigned
`control_value == 3` at construction and at every update. -/
structure PentairPumpProgram where
  id : Int
  name : String
  program_type : Int
  control_value : Int
  running : Bool
  deriving Repr, DecidableEq

/-- Constructor `PentairPumpProgram.__init__`: `running = control_value == 3`. -/
def mkProgram (id : Int) (name : String) (program_type : Int)
    (control_value : Int) : PentairPumpProgram :=
  ⟨id, name, program_type, control_value, control_value == 3⟩

/-- Embedding of class `PentairDevice` (pentaircloud_modified.py): the
decoded device-status fields together with the ordered program list. -/
structure PentairDevice where
  pentair_device_id : String
  nickname : String
  active_pump_program : Option Int
  programs : List PentairPumpProgram
  pump_running : Bool
  relay1_on : Bool
  relay2_on : Bool
  motor_speed : Rat
  power : Int
  flow_rate : Rat
  deriving Repr, DecidableEq

/-- Constructor `PentairDevice.__init__`: fresh device with empty program
list and zeroed status fields. -/
def mkDevice (pentair_device_id nickname : String) : PentairDevice :=
  { pentair_device_id := pentair_device_id
    nickname := nickname
    active_pump_program := none
    programs := []
    pump_running := false
    relay1_on := false
    relay2_on := false
    motor_speed := 0
    power := 0
    flow_rate := 0 }

/-- One pass of the update loop body in `PentairDevice.update_program`:
an entry whose `id` matches is overwritten in place (name, type, control
value, and `running := control_value == 3`); other entries are untouched. -/
def updateEntry (id : Int) (name : String) (program_type : Int)
    (control_value : Int) (p : PentairPumpProgram) : PentairPumpProgram :=
  if p.id == id then
    { p with name := name, program_type := program_type,
             control_value := control_value, running := control_value == 3 }
  else p

/-- Embedding of `PentairDevice.update_program`: every entry with a
matching id is overwritten in place; if no entry matched (`exists` stays
false in the source), a fresh `PentairPumpProgram` is appended. -/
def PentairDevice.update_program (d : PentairDevice) (id : Int)
    (name : String) (program_type : Int) (control_value : Int) : PentairDevice :=
  let updated := d.programs.map (updateEntry id name program_type control_value)
  if d.programs.any (fun p => p.id == id) then
    { d with programs := updated }
  else
    { d with programs := updated ++ [mkProgram id name program_type control_value] }

/-! ### Fan entity (fan.py): heater safety, debounce, speed mapping -/

/-- The `config_entry` program mappings built in `async_setup_entry`:
logical speed roles to vendor program ids. -/
structure ProgramMappings where
  low : Int
  medium : Int
  high : Int
  maxSpeed : Int
  deriving Repr, DecidableEq

/-- The reverse dictionary `self._program_to_speed` built in
`PentairPumpFan.__init__`: `{low: 30, medium: 50, high: 75, max: 100}`.
Python dict construction lets a later duplicate key win, so the lookup
checks the later role bindings first. -/
def program_to_speed (m : ProgramMappings) (pid : Int) : Option Int :=
  if pid == m.maxSpeed then some 100
  else if pid == m.high then some 75
  else if pid == m.medium then some 50
  else if pid == m.low then some 30
  else none

/-- State of a `PentairPumpFan` entity relevant to the safety, debounce
and turn-off logic. `live_task` is the speed argument of the one
not-yet-cancelled `_debounced_speed_change` task (`self._speed_change_task`),
`executed` records every invocation of `_execute_speed_change` in order. -/
structure FanState where
  mappings : ProgramMappings
  device : PentairDevice
  heater_on : Bool
  attr_percentage : Int
  attr_is_on : Bool
  attr_preset_mode : String
  minimum_speed_override : Bool
  pending_speed_change : Option Int
  live_task : Option Int
  executed : List Int
  deriving Repr, DecidableEq

/-- Embedding of `PentairPumpFan._check_heater_safety`. Returns the
updated entity state (the method mutates `self._minimum_speed_override`)
together with the adjusted speed the method returns. -/
def check_heater_safety (st : FanState) (requested_speed : Int) :
    FanState × Int :=
  if st.heater_on && requested_speed < 50 && requested_speed > 0 then
    ({ st with minimum_speed_override := true }, 50)
  else if st.heater_on && requested_speed == 0 then
    (st, if st.attr_percentage > 0 then st.attr_percentage else 50)
  else
    ({ st with minimum_speed_override := false }, requested_speed)

/-- Embedding of `PentairPumpFan.async_set_percentage`: clamp to
`[0, 100]`, apply the heater safety check, and on the early-return case
(speed adjusted for safety but equal to the current percentage) change
nothing else; otherwise cancel any pending debounce task and replace it
with a fresh task for the safe speed (`self._pending_speed_change` and the
new task both carry `safe_speed`). The user notification on a safety
adjustment is an external effect and is not part of the state. -/
def async_set_percentage (st : FanState) (percentage : Int) : FanState :=
  let p := max 0 (min 100 percentage)
  let res := check_heater_safety st p
  let st1 := res.1
  let safe := res.2
  if safe != p && safe == st1.attr_percentage then st1
  else { st1 with pending_speed_change := some safe, live_task := some safe }

/-- Embedding of the debounce-timer expiry: the surviving
`_debounced_speed_change` task wakes after its sleep and calls
`_execute_speed_change` only if `self._pending_speed_change` still equals
its own speed argument; a cancelled task never reaches this point (its
`asyncio.CancelledError` branch only logs). The invocation is recorded in
`executed`; the body of `_execute_speed_change` is modelled separately. -/
def fire_debounce (st : FanState) : FanState :=
  match st.live_task with
  | none => st
  | some s =>
    let st1 := { st with live_task := none }
    if st1.pending_speed_change == some s then
      { st1 with executed := st1.executed ++ [s] }
    else st1

/-- The percentage-to-program bucket mapping at the top of
`PentairPumpFan._execute_speed_change` (lines 253-267): returns the
target program id (`none` means full stop) and the actual speed. -/
def speed_to_target (m : ProgramMappings) (speed : Int) : Option Int × Int :=
  if speed == 0 then (none, 0)
  else if speed ≤ 30 then (some m.low, 30)
  else if speed ≤ 50 then (some m.medium, 50)
  else if speed ≤ 75 then (some m.high, 75)
  else (some m.maxSpeed, 100)

/-- Embedding of `PentairPumpFan.async_turn_off`. Result components:
the new entity state, whether `HomeAssistantError` was raised, and the
list of program ids a stop command was issued for. With the heater on
the method raises before issuing any stop command. With the heater off
it stops every running pump program; since `stop_program` returns `None`,
the source's `if not success` check marks every issued stop as failed, so
the state update is reached only when no stop was issued at all. -/
def async_turn_off (st : FanState) : FanState × Bool × List Int :=
  if st.heater_on then (st, true, [])
  else
    let stops := st.device.programs.filter
      (fun p => p.running && (program_to_speed st.mappings p.id).isSome)
    let stopIds := stops.map (fun p => p.id)
    if stopIds.isEmpty then
      ({ st with attr_percentage := 0, attr_is_on := false,
                 attr_preset_mode := "off" }, false, stopIds)
    else (st, false, stopIds)

/-! ### Hub (pentaircloud_modified.py): poller, dispatcher, discovery -/

/-- The decoded field set of one `zp{i}` program slot in a status
response. `e13` is the slot-active flag, `e5` the program type, `e10`
the control value, `e2` the slot name. `none` models a missing field
(the source's `.get` default then applies); `e5` and `e10` are stored
as the integers the source's `int(...)` would produce. -/
structure SlotFields where
  e13 : Option String
  e5 : Int
  e10 : Int
  e2 : Option String
  deriving Repr, DecidableEq

/-- The decoded field map of one device in a status response. `s14` is
the active-pump-program index, `s19` motor speed ×10, `s18` power, `s26`
flow rate ×10, `s21`/`s22` the relay flags; `slots i` carries the
`zp{i}` fields for slot `i` in 1..8. Missing optional fields are `none`;
numeric fields hold the integer the source's `int(...)` parse yields. -/
structure DeviceFields where
  s14 : Option Int
  s19 : Int
  s18 : Int
  s26 : Int
  s21 : Option String
  s22 : Option String
  slots : Nat → SlotFields

/-- Decode of the `s14` active-pump-program field
(update_pentair_devices_status lines 261-265): the raw 0-based index
becomes a 1-based program id; the sentinel 99 becomes `None`. -/
def decode_active_pump_program (raw : Int) : Option Int :=
  if raw == 99 then none else some (raw + 1)

/-- One iteration of the `for i in range(1, 9)` slot loop: if the slot's
`e13` active flag is the string `"1"`, upsert the slot's program into the
device; otherwise leave the device untouched. The name default is the
source's `f"Program \x7bi\x7d"`. -/
def updateSlot (f : DeviceFields) (d : PentairDevice) (i : Nat) : PentairDevice :=
  let s := f.slots i
  if s.e13 == some "1" then
    d.update_program (Int.ofNat i) (s.e2.getD ("Program " ++ toString i)) s.e5 s.e10
  else d

/-- The per-device decode body of `update_pentair_devices_status`
(lines 259-285): status fields first (with the source's `.get` defaults:
`s14` defaults to `"99"`, the numeric fields to `"0"`), then the slot
loop for i in 1..8. -/
def decodeDevice (f : DeviceFields) (d : PentairDevice) : PentairDevice :=
  let app := decode_active_pump_program (f.s14.getD 99)
  let d1 := { d with
    active_pump_program := app
    pump_running := app.isSome
    motor_speed := (f.s19 : Rat) / 10
    power := f.s18
    flow_rate := (f.s26 : Rat) / 10
    relay1_on := f.s21.getD "0" == "1"
    relay2_on := f.s22.getD "0" == "1" }
  (List.range 8).foldl (fun d i => updateSlot f d (i + 1)) d1

/-- State of a `PentairCloudHub` relevant to the claims: the bearer
token, the time of the last status update, and the device registry.
The derived signing credentials and the cognito session are opaque to
the decoded behaviour and are not tracked. -/
structure HubState where
  aws_token : Option String
  last_update : Option Int
  devices : List PentairDevice

/-- The decoded response of one batched status request: a list of
`(deviceId, fields)` entries, mirroring `response["response"]["data"]`. -/
def StatusResponse := List (String × DeviceFields)

/-- The matching loops of `update_pentair_devices_status`: for each
response entry, every registry device with the same `deviceId` is
decoded from that entry's fields. -/
def applyStatus (devices : List PentairDevice) (resp : StatusResponse) :
    List PentairDevice :=
  resp.foldl
    (fun devs entry =>
      devs.map (fun d =>
        if d.pentair_device_id == entry.1 then decodeDevice entry.2 d else d))
    devices

/-- Embedding of `PentairCloudHub.update_pentair_devices_status`. `now`
is the value of `time.time()`, `resp` the decoded remote response. The
returned `Bool` reports whether the remote fetch was performed. The
guard is the source's: proceed only when `last_update` is `None` or
`now - last_update > UPDATE_MIN_SECONDS` (60); the no-op branch only
logs. `populate_AWS_token` is a no-op here (the cognito session token is
unchanged within one call); with an empty token the method only logs,
but `last_update` has already been stamped. -/
def update_pentair_devices_status (st : HubState) (now : Int)
    (resp : StatusResponse) : HubState × Bool :=
  let fetch : Bool :=
    match st.last_update with
    | none => true
    | some lu => now - lu > 60
  if fetch then
    let st1 := { st with last_update := some now }
    match st1.aws_token with
    | none => (st1, false)
    | some _ => ({ st1 with devices := applyStatus st1.devices resp }, true)
  else (st, false)

/-- Outcome of one `requests.put` program command as the source observes
it: either an exception (transport error, or `response.json()` failure),
or a decoded JSON body whose nested `data.code` field is carried as an
`Option String` (`none` when the key is absent). -/
inductive PutResponse where
  | exn : PutResponse
  | resp : Option String → PutResponse

/-- The optimistic registry update in the success branch of
`activate_program_concurrent` / `deactivate_program`: on every device
with the commanded id, every program with the commanded program id has
`running` and `control_value` overwritten. -/
def setProgramState (devices : List PentairDevice) (deviceId : String)
    (program_id : Int) (running : Bool) (cv : Int) : List PentairDevice :=
  devices.map (fun d =>
    if d.pentair_device_id == deviceId then
      { d with programs := d.programs.map (fun p =>
          if p.id == program_id then
            { p with running := running, control_value := cv }
          else p) }
    else d)

/-- Embedding of `PentairCloudHub.activate_program_concurrent`. The
second component is the Python return value: the method is annotated
`-> None` and its body contains no `return` statement, so it is `none`
(Python `None`) on every path. The leading `populate_AWS_token` call is
a no-op here (the cognito session token is unchanged within one call,
as for the status update). A response whose `data.code` is not
`"set_device_success"` raises, the `except` block only logs, and the
registry is untouched; on the success code the registry is updated
optimistically. With an empty token the method only logs. -/
def activate_program_concurrent (st : HubState) (deviceId : String)
    (program_id : Int) (resp : PutResponse) : HubState × Option Bool :=
  match st.aws_token with
  | none => (st, none)
  | some _ =>
    match resp with
    | .exn => (st, none)
    | .resp code =>
      if code == some "set_device_success" then
        ({ st with devices := setProgramState st.devices deviceId program_id true 3 },
         none)
      else (st, none)

/-- Embedding of `PentairCloudHub.deactivate_program`: same shape as
activation with control value 0 and `running := False`; the code check
`response_data["data"]["code"]` raises on a missing key or a mismatch,
and the method likewise returns Python `None` on every path. -/
def deactivate_program (st : HubState) (deviceId : String)
    (program_id : Int) (resp : PutResponse) : HubState × Option Bool :=
  match st.aws_token with
  | none => (st, none)
  | some _ =>
    match resp with
    | .exn => (st, none)
    | .resp code =>
      if code == some "set_device_success" then
        ({ st with devices := setProgramState st.devices deviceId program_id false 0 },
         none)
      else (st, none)

/-- One entry of the device listing returned by the discovery request in
`populate_pentair_devices`. -/
structure ListedDevice where
  deviceType : String
  status : String
  deviceId : String
  nickName : String
  deriving Repr

/-- Embedding of `PentairCloudHub.populate_pentair_devices`: with a
token present, every listed device of type `"IF31"` with status
`"ACTIVE"` is appended to `self.devices` as a fresh `PentairDevice` —
with no check whether that device id is already present — and then
`update_pentair_devices_status` runs (`now` and `resp` model its time
and remote response). With an empty token the method only logs. -/
def populate_pentair_devices (st : HubState) (listing : List ListedDevice)
    (now : Int) (resp : StatusResponse) : HubState :=
  match st.aws_token with
  | none => st
  | some _ =>
    let st1 := { st with devices := st.devices ++
      ((listing.filter (fun d => d.deviceType == "IF31" && d.status == "ACTIVE")).map
        (fun d => mkDevice d.deviceId d.nickName)) }
    (update_pentair_devices_status st1 now resp).1

/-! ### Shared lemmas -/

/-- With the heater off, the safety check clears the override flag and
passes the requested speed through unchanged. -/
lemma chs_heater_off (st : FanState) (p : Int) (h : st.heater_on = false) :
    check_heater_safety st p = ({ st with minimum_speed_override := false }, p) := by
  simp [check_heater_safety, h]

/-- With the heater off, a set-percentage request clamps, clears the
override flag, and installs the clamped value as the pending debounced
speed change (cancelling any previous task). -/
lemma set_pct_heater_off (st : FanState) (p : Int) (h : st.heater_on = false) :
    async_set_percentage st p =
      { st with minimum_speed_override := false,
                pending_speed_change := some (max 0 (min 100 p)),
                live_task := some (max 0 (min 100 p)) } := by
  simp [async_set_percentage, chs_heater_off _ _ h]

/-- A concrete entity state used to instantiate theorems with
hypotheses: heater on, pump currently at 75%. -/
def sampleFanOn : FanState :=
  { mappings := ⟨3, 2, 4, 1⟩
    device := mkDevice "d1" "Pool"
    heater_on := true
    attr_percentage := 75
    attr_is_on := true
    attr_preset_mode := "high"
    minimum_speed_override := false
    pending_speed_change := none
    live_task := none
    executed := [] }

/-- A concrete entity state with the heater off and the pump stopped. -/
def sampleFanOff : FanState :=
  { mappings := ⟨3, 2, 4, 1⟩
    device := mkDevice "d1" "Pool"
    heater_on := false
    attr_percentage := 0
    attr_is_on := false
    attr_preset_mode := "off"
    minimum_speed_override := false
    pending_speed_change := none
    live_task := none
    executed := [] }

/-! ### Claim theorems -/

/-- C1: with the heater on, a requested pump percentage strictly between
0 and 50 makes `_check_heater_safety` return 50 and set
`_minimum_speed_override`; for any request of 50 or above, or with the
heater off, the request is returned unchanged and the override flag is
cleared. -/
theorem heater_safety_clamps_low_speeds (st : FanState) (rs : Int) :
    (st.heater_on = true → 0 < rs → rs < 50 →
      check_heater_safety st rs = ({ st with minimum_speed_override := true }, 50)) ∧
    (50 ≤ rs ∨ st.heater_on = false →
      check_heater_safety st rs = ({ st with minimum_speed_override := false }, rs)) := by
  constructor
  · intro h1 h2 h3
    simp [check_heater_safety, h1, h2, h3]
  · intro h
    rcases h with h | h
    · have h1 : ¬ rs < 50 := by omega
      have h2 : rs ≠ 0 := by omega
      simp [check_heater_safety, h1, h2]
    · simp [check_heater_safety, h]

/-- Witness for C1: heater on and a request of 20 yields 50 with the
override flag set. -/
theorem heater_safety_clamps_low_speeds_witness :
    check_heater_safety sampleFanOn 20 =
      ({ sampleFanOn with minimum_speed_override := true }, 50) :=
  (heater_safety_clamps_low_speeds sampleFanOn 20).1 rfl (by decide) (by decide)

/-- C2: with the heater on, `async_turn_off` raises `HomeAssistantError`
without issuing any stop command and leaves the state unchanged; and
`_check_heater_safety` with a requested percentage of 0 returns the
current non-zero percentage (or 50 when the current percentage is 0)
while leaving the stored percentage untouched. -/
theorem heater_on_blocks_pump_turn_off (st : FanState) (h : st.heater_on = true) :
    async_turn_off st = (st, true, []) ∧
    (0 < st.attr_percentage → check_heater_safety st 0 = (st, st.attr_percentage)) ∧
    (st.attr_percentage = 0 → check_heater_safety st 0 = (st, 50)) := by
  refine ⟨by simp [async_turn_off, h], ?_, ?_⟩
  · intro hp
    simp [check_heater_safety, h, hp]
  · intro hp
    simp [check_heater_safety, h, hp]

/-- Witness for C2: with the heater on at 75%, turn-off raises with no
stop commands and the state is untouched; a zero-speed request is
answered with the current 75. -/
theorem heater_on_blocks_pump_turn_off_witness :
    async_turn_off sampleFanOn = (sampleFanOn, true, []) ∧
    check_heater_safety sampleFanOn 0 = (sampleFanOn, 75) :=
  ⟨(heater_on_blocks_pump_turn_off sampleFanOn rfl).1,
   (heater_on_blocks_pump_turn_off sampleFanOn rfl).2.1 (by decide)⟩

/-- C7: the speed-change mapping buckets a requested percentage by
ceiling: 1..30 to the low program at actual speed 30, 31..50 to medium
at 50, 51..75 to high at 75, above 75 to max at 100, and 0 to no
program (full stop). -/
theorem speed_bucket_mapping (m : ProgramMappings) (s : Int) :
    (1 ≤ s → s ≤ 30 → speed_to_target m s = (some m.low, 30)) ∧
    (31 ≤ s → s ≤ 50 → speed_to_target m s = (some m.medium, 50)) ∧
    (51 ≤ s → s ≤ 75 → speed_to_target m s = (some m.high, 75)) ∧
    (76 ≤ s → speed_to_target m s = (some m.maxSpeed, 100)) ∧
    speed_to_target m 0 = (none, 0) := by
  refine ⟨?_, ?_, ?_, ?_, by simp [speed_to_target]⟩
  · intro h1 h2
    have hne : s ≠ 0 := by omega
    simp [speed_to_target, hne, h2]
  · intro h1 h2
    have hne : s ≠ 0 := by omega
    have h3 : ¬ s ≤ 30 := by omega
    simp [speed_to_target, hne, h2, h3]
  · intro h1 h2
    have hne : s ≠ 0 := by omega
    have h3 : ¬ s ≤ 30 := by omega
    have h4 : ¬ s ≤ 50 := by omega
    simp [speed_to_target, hne, h2, h3, h4]
  · intro h1
    have hne : s ≠ 0 := by omega
    have h3 : ¬ s ≤ 30 := by omega
    have h4 : ¬ s ≤ 50 := by omega
    have h5 : ¬ s ≤ 75 := by omega
    simp [speed_to_target, hne, h3, h4, h5]

/-- Witness for C7: with the default mappings (low 3, medium 2, high 4,
max 1), the eight boundary inputs land in the stated buckets. -/
theorem speed_bucket_mapping_witness :
    speed_to_target ⟨3, 2, 4, 1⟩ 1 = (some 3, 30) ∧
    speed_to_target ⟨3, 2, 4, 1⟩ 30 = (some 3, 30) ∧
    speed_to_target ⟨3, 2, 4, 1⟩ 31 = (some 2, 50) ∧
    speed_to_target ⟨3, 2, 4, 1⟩ 50 = (some 2, 50) ∧
    speed_to_target ⟨3, 2, 4, 1⟩ 51 = (some 4, 75) ∧
    speed_to_target ⟨3, 2, 4, 1⟩ 75 = (some 4, 75) ∧
    speed_to_target ⟨3, 2, 4, 1⟩ 76 = (some 1, 100) ∧
    speed_to_target ⟨3, 2, 4, 1⟩ 100 = (some 1, 100) :=
  ⟨(speed_bucket_mapping ⟨3, 2, 4, 1⟩ 1).1 (by decide) (by decide),
   (speed_bucket_mapping ⟨3, 2, 4, 1⟩ 30).1 (by decide) (by decide),
   (speed_bucket_mapping ⟨3, 2, 4, 1⟩ 31).2.1 (by decide) (by decide),
   (speed_bucket_mapping ⟨3, 2, 4, 1⟩ 50).2.1 (by decide) (by decide),
   (speed_bucket_mapping ⟨3, 2, 4, 1⟩ 51).2.2.1 (by decide) (by decide),
   (speed_bucket_mapping ⟨3, 2, 4, 1⟩ 75).2.2.1 (by decide) (by decide),
   (speed_bucket_mapping ⟨3, 2, 4, 1⟩ 76).2.2.2.1 (by decide),
   (speed_bucket_mapping ⟨3, 2, 4, 1⟩ 100).2.2.2.1 (by decide)⟩

/-- Running a burst of set-percentage requests with the heater off ends
with the last request's clamped value installed as both the pending
value and the single live debounce task: every earlier task was
cancelled and replaced. -/
lemma requests_install_last (ps : List Int) :
    ∀ (p : Int) (st : FanState), st.heater_on = false →
      (ps ++ [p]).foldl async_set_percentage st =
        { st with minimum_speed_override := false,
                  pending_speed_change := some (max 0 (min 100 p)),
                  live_task := some (max 0 (min 100 p)) } := by
  induction ps with
  | nil =>
    intro p st h
    simpa using set_pct_heater_off st p h
  | cons q qs ih =>
    intro p st h
    rw [List.cons_append, List.foldl_cons, set_pct_heater_off st q h]
    exact ih p _ h

/-- C8: a debounced speed command executes only when no newer request
superseded it. With the heater off, any burst of requests ending in `p`
executes nothing while the burst lasts, and when the surviving debounce
delay expires exactly one command runs, for the clamped value of the
last request `p`. -/
theorem debounce_executes_only_last_request (st : FanState)
    (h : st.heater_on = false) (ps : List Int) (p : Int) :
    ((ps ++ [p]).foldl async_set_percentage st).executed = st.executed ∧
    fire_debounce ((ps ++ [p]).foldl async_set_percentage st) =
      { st with minimum_speed_override := false,
                pending_speed_change := some (max 0 (min 100 p)),
                live_task := none,
                executed := st.executed ++ [max 0 (min 100 p)] } := by
  rw [requests_install_last ps p st h]
  exact ⟨rfl, by simp [fire_debounce]⟩

/-- Witness for C8: requests of 30 then 75 in one burst execute nothing
until the delay expires, and then exactly one command, for 75. -/
theorem debounce_executes_only_last_request_witness :
    (([30] ++ [75]).foldl async_set_percentage sampleFanOff).executed = [] ∧
    fire_debounce (([30] ++ [75]).foldl async_set_percentage sampleFanOff) =
      { sampleFanOff with minimum_speed_override := false,
                          pending_speed_change := some 75,
                          live_task := none,
                          executed := [75] } :=
  debounce_executes_only_last_request sampleFanOff rfl [30] 75

/-- A fetching status update stamps `last_update` with the call time
and leaves the token as it was. -/
lemma update_fetch_stamps (st : HubState) (now : Int) (r : StatusResponse)
    (hf : (update_pentair_devices_status st now r).2 = true) :
    (update_pentair_devices_status st now r).1.last_update = some now ∧
    (update_pentair_devices_status st now r).1.aws_token = st.aws_token := by
  rcases hlu : st.last_update with _ | lu
  · rcases htok : st.aws_token with _ | t
    · simp [update_pentair_devices_status, hlu, htok] at hf
    · simp [update_pentair_devices_status, hlu, htok]
  · by_cases hgt : now - lu > 60
    · rcases htok : st.aws_token with _ | t
      · simp [update_pentair_devices_status, hlu, htok, hgt] at hf
      · simp [update_pentair_devices_status, hlu, htok, hgt]
    · simp [update_pentair_devices_status, hlu, hgt] at hf

/-- C4: once a status update has actually fetched, a second call issued
within the 60-second minimum interval performs no remote request and
returns the hub state exactly as the first call left it. -/
theorem update_status_rate_limited (st : HubState) (now1 now2 : Int)
    (r1 r2 : StatusResponse)
    (hf : (update_pentair_devices_status st now1 r1).2 = true)
    (horder : now1 ≤ now2) (hlt : now2 - now1 < 60) :
    update_pentair_devices_status (update_pentair_devices_status st now1 r1).1 now2 r2 =
      ((update_pentair_devices_status st now1 r1).1, false) := by
  have h1 := (update_fetch_stamps st now1 r1 hf).1
  have hng : ¬ (60 : Int) < now2 - now1 := by omega
  set st1 := (update_pentair_devices_status st now1 r1).1 with hst1
  simp [update_pentair_devices_status, h1, hng]

/-- A concrete hub with a token, never yet updated, owning one device
with one manual program in slot 2. -/
def sampleHub : HubState :=
  { aws_token := some "tok"
    last_update := none
    devices := [{ mkDevice "d1" "Pool" with
                    programs := [mkProgram 2 "Pool Med" 2 0] }] }

/-- Witness for C4: the first call at t=1000 fetches; the second at
t=1030 is a no-op returning the state of the first unchanged. -/
theorem update_status_rate_limited_witness :
    (update_pentair_devices_status sampleHub 1000 []).2 = true ∧
    update_pentair_devices_status
        (update_pentair_devices_status sampleHub 1000 []).1 1030 [] =
      ((update_pentair_devices_status sampleHub 1000 []).1, false) :=
  ⟨rfl, update_status_rate_limited sampleHub 1000 1030 [] [] rfl (by decide) (by decide)⟩

/-- Upserting a program touches only the program list: the decoded
status fields of the device, in particular `active_pump_program` and
the device id, are untouched. -/
lemma update_program_keeps_fields (d : PentairDevice) (id : Int)
    (name : String) (pt cv : Int) :
    (d.update_program id name pt cv).active_pump_program = d.active_pump_program ∧
    (d.update_program id name pt cv).pentair_device_id = d.pentair_device_id := by
  simp only [PentairDevice.update_program]
  split <;> exact ⟨rfl, rfl⟩

/-- One slot-loop iteration keeps `active_pump_program` and the device
id unchanged. -/
lemma updateSlot_keeps_fields (f : DeviceFields) (d : PentairDevice) (i : Nat) :
    (updateSlot f d i).active_pump_program = d.active_pump_program ∧
    (updateSlot f d i).pentair_device_id = d.pentair_device_id := by
  simp only [updateSlot]
  split
  · exact update_program_keeps_fields ..
  · exact ⟨rfl, rfl⟩

/-- The whole slot loop keeps `active_pump_program` and the device id
unchanged. -/
lemma foldl_updateSlot_keeps_fields (f : DeviceFields) (l : List Nat) :
    ∀ d : PentairDevice,
      (l.foldl (fun d i => updateSlot f d (i + 1)) d).active_pump_program =
        d.active_pump_program ∧
      (l.foldl (fun d i => updateSlot f d (i + 1)) d).pentair_device_id =
        d.pentair_device_id := by
  induction l with
  | nil => intro d; exact ⟨rfl, rfl⟩
  | cons x xs ih =>
    intro d
    have h1 := updateSlot_keeps_fields f d (x + 1)
    have h2 := ih (updateSlot f d (x + 1))
    exact ⟨h2.1.trans h1.1, h2.2.trans h1.2⟩

/-- The decoded `active_pump_program` of a device is exactly the `s14`
decode of the response (default raw value 99 when the field is absent). -/
lemma decodeDevice_app (f : DeviceFields) (d : PentairDevice) :
    (decodeDevice f d).active_pump_program =
      decode_active_pump_program (f.s14.getD 99) := by
  exact (foldl_updateSlot_keeps_fields f (List.range 8) _).1

/-- Decoding a status response never changes a device's identity. -/
lemma decodeDevice_keeps_id (f : DeviceFields) (d : PentairDevice) :
    (decodeDevice f d).pentair_device_id = d.pentair_device_id := by
  exact (foldl_updateSlot_keeps_fields f (List.range 8) _).2

/-- C5: for a status poll whose raw `s14` value is i in [0, 97], the
decoded `active_pump_program` is i + 1 (0-based to 1-based); the raw
sentinel 99 decodes to `None`. -/
theorem s14_off_by_one_decode (d : PentairDevice) (f : DeviceFields) :
    (∀ i : Int, f.s14 = some i → 0 ≤ i → i ≤ 97 →
      (decodeDevice f d).active_pump_program = some (i + 1)) ∧
    (f.s14 = some 99 → (decodeDevice f d).active_pump_program = none) := by
  constructor
  · intro i hs h0 h97
    rw [decodeDevice_app, hs]
    have hne : i ≠ 99 := by omega
    simp [decode_active_pump_program, hne]
  · intro hs
    rw [decodeDevice_app, hs]
    simp [decode_active_pump_program]

/-- A concrete status-response field set with `s14 = 20` and all slots
inactive. -/
def sampleFields : DeviceFields :=
  { s14 := some 20
    s19 := 345
    s18 := 1200
    s26 := 550
    s21 := some "1"
    s22 := none
    slots := fun _ => ⟨none, 0, 0, none⟩ }

/-- Witness for C5: raw `s14 = 20` decodes to program 21, and raw 99
decodes to `None`. -/
theorem s14_off_by_one_decode_witness :
    (decodeDevice sampleFields (mkDevice "d1" "Pool")).active_pump_program =
      some 21 ∧
    (decodeDevice { sampleFields with s14 := some 99 }
        (mkDevice "d1" "Pool")).active_pump_program = none :=
  ⟨(s14_off_by_one_decode (mkDevice "d1" "Pool") sampleFields).1 20 rfl
      (by decide) (by decide),
   (s14_off_by_one_decode (mkDevice "d1" "Pool")
      { sampleFields with s14 := some 99 }).2 rfl⟩

/-- The optimistic-update relation for a program command with commanded
running flag `b` and control value `cv`: devices other than the
commanded one are untouched; on the commanded device, programs keep
their positions, and only entries with the commanded program id have
`running` and `control_value` overwritten. -/
def OptimisticUpdate (did : String) (pid : Int) (b : Bool) (cv : Int)
    (old new : List PentairDevice) : Prop :=
  List.Forall₂ (fun d d' =>
    (d.pentair_device_id ≠ did → d' = d) ∧
    (d.pentair_device_id = did →
      List.Forall₂ (fun p p' =>
        (p.id ≠ pid → p' = p) ∧
        (p.id = pid → p' = { p with running := b, control_value := cv }))
        d.programs d'.programs)) old new

/-- The registry mutation in the command success branch satisfies the
optimistic-update relation. -/
lemma setProgramState_spec (devices : List PentairDevice) (did : String)
    (pid : Int) (b : Bool) (cv : Int) :
    OptimisticUpdate did pid b cv devices
      (setProgramState devices did pid b cv) := by
  rw [OptimisticUpdate, setProgramState, List.forall₂_map_right_iff,
      List.forall₂_same]
  intro d _
  constructor
  · intro hne
    simp [hne]
  · intro heq
    simp only [heq, beq_self_eq_true, if_pos]
    rw [List.forall₂_map_right_iff, List.forall₂_same]
    intro p _
    constructor
    · intro hpne
      simp [hpne]
    · intro hpeq
      simp [hpeq]

/-- C3: a program command mutates the registry exactly when the remote
response carries the `set_device_success` code. On the success code the
commanded program's `running`/`control_value` become true/3 (activate)
or false/0 (deactivate) immediately, positions untouched; on any other
code, a missing code, or a transport exception, the hub state is left
completely unchanged (and the return value is always Python `None`). -/
theorem program_command_optimistic_update (st : HubState) (t : String)
    (h : st.aws_token = some t) (did : String) (pid : Int) :
    (∀ code : Option String, code ≠ some "set_device_success" →
      activate_program_concurrent st did pid (.resp code) = (st, none) ∧
      deactivate_program st did pid (.resp code) = (st, none)) ∧
    activate_program_concurrent st did pid .exn = (st, none) ∧
    deactivate_program st did pid .exn = (st, none) ∧
    OptimisticUpdate did pid true 3 st.devices
      (activate_program_concurrent st did pid
        (.resp (some "set_device_success"))).1.devices ∧
    OptimisticUpdate did pid false 0 st.devices
      (deactivate_program st did pid
        (.resp (some "set_device_success"))).1.devices := by
  refine ⟨?_, ?_, ?_, ?_, ?_⟩
  · intro code hcode
    have hb : (code == some "set_device_success") = false := by
      simpa using hcode
    simp [activate_program_concurrent, deactivate_program, h, hb]
  · simp [activate_program_concurrent, h]
  · simp [deactivate_program, h]
  · simp only [activate_program_concurrent, h, beq_self_eq_true, if_pos]
    exact setProgramState_spec ..
  · simp only [deactivate_program, h, beq_self_eq_true, if_pos]
    exact setProgramState_spec ..

/-- Witness for C3: on the sample hub a failing deactivation leaves the
state unchanged, and a successful activation immediately marks program 2
of device d1 as running with control value 3. -/
theorem program_command_optimistic_update_witness :
    deactivate_program sampleHub "d1" 2 (.resp (some "command_failed")) =
      (sampleHub, none) ∧
    OptimisticUpdate "d1" 2 true 3 sampleHub.devices
      (activate_program_concurrent sampleHub "d1" 2
        (.resp (some "set_device_success"))).1.devices :=
  ⟨((program_command_optimistic_update sampleHub "tok" rfl "d1" 2).1
      (some "command_failed") (by decide)).2,
   (program_command_optimistic_update sampleHub "tok" rfl "d1" 2).2.2.2.1⟩

/-- Overwriting a matching entry does not change its identity. -/
lemma updateEntry_id (id : Int) (n : String) (t cv : Int)
    (p : PentairPumpProgram) : (updateEntry id n t cv p).id = p.id := by
  simp only [updateEntry]
  split <;> rfl

/-- When no entry of the list matches the upserted identity, the update
pass leaves the list untouched. -/
lemma map_updateEntry_of_no_match (id : Int) (n : String) (t cv : Int) :
    ∀ l : List PentairPumpProgram, l.any (fun p => p.id == id) = false →
      l.map (updateEntry id n t cv) = l := by
  intro l
  induction l with
  | nil => intro _; rfl
  | cons x xs ih =>
    intro hl
    simp only [List.any_cons, Bool.or_eq_false_iff] at hl
    rw [List.map_cons, ih hl.2]
    have hx : updateEntry id n t cv x = x := by
      simp [updateEntry, hl.1]
    rw [hx]

/-- The update pass keeps the multiset of identities, so the
matching-entry test is unchanged by it. -/
lemma any_map_updateEntry (id : Int) (n : String) (t cv : Int)
    (l : List PentairPumpProgram) :
    (l.map (updateEntry id n t cv)).any (fun p => p.id == id) =
      l.any (fun p => p.id == id) := by
  induction l with
  | nil => rfl
  | cons x xs ih => simp only [List.map_cons, List.any_cons, ih, updateEntry_id]

/-- The update pass keeps per-identity entry counts. -/
lemma countP_map_updateEntry (id : Int) (n : String) (t cv : Int)
    (l : List PentairPumpProgram) :
    (l.map (updateEntry id n t cv)).countP (fun p => p.id == id) =
      l.countP (fun p => p.id == id) := by
  induction l with
  | nil => rfl
  | cons x xs ih =>
    simp only [List.map_cons, List.countP_cons, ih, updateEntry_id]

/-- Overwriting an entry twice with the same field values equals
overwriting it once. -/
lemma updateEntry_idem (id : Int) (n : String) (t cv : Int)
    (p : PentairPumpProgram) :
    updateEntry id n t cv (updateEntry id n t cv p) =
      updateEntry id n t cv p := by
  by_cases h : (p.id == id) = true
  · simp [updateEntry, h]
  · simp [updateEntry, h]

/-- A second update pass over an already-updated list changes nothing. -/
lemma map_map_updateEntry (id : Int) (n : String) (t cv : Int)
    (l : List PentairPumpProgram) :
    (l.map (updateEntry id n t cv)).map (updateEntry id n t cv) =
      l.map (updateEntry id n t cv) := by
  induction l with
  | nil => rfl
  | cons x xs ih => simp only [List.map_cons, ih, updateEntry_idem]

/-- Overwriting a freshly constructed program with its own field values
changes nothing. -/
lemma updateEntry_mkProgram (id : Int) (n : String) (t cv : Int) :
    updateEntry id n t cv (mkProgram id n t cv) = mkProgram id n t cv := by
  simp [updateEntry, mkProgram]

/-- C9: `update_program` is an upsert by program identity. If the
identity is present, every entry keeps its position, non-matching
entries are untouched and matching entries have name, type, control
value and the derived `running` overwritten in place; if the identity is
absent, a fresh program is appended at the end; the upsert is
idempotent; and starting from a registry with at most one entry for the
identity, the result has exactly one entry for it. -/
theorem update_program_upsert_by_identity (d : PentairDevice) (id : Int)
    (name : String) (pt cv : Int) :
    (d.programs.any (fun p => p.id == id) = true →
      List.Forall₂ (fun p q =>
        (p.id ≠ id → q = p) ∧
        (p.id = id → q = { p with name := name, program_type := pt,
                                  control_value := cv, running := cv == 3 }))
        d.programs (d.update_program id name pt cv).programs) ∧
    (d.programs.any (fun p => p.id == id) = false →
      (d.update_program id name pt cv).programs =
        d.programs ++ [mkProgram id name pt cv]) ∧
    (d.update_program id name pt cv).update_program id name pt cv =
      d.update_program id name pt cv ∧
    (d.programs.countP (fun p => p.id == id) ≤ 1 →
      (d.update_program id name pt cv).programs.countP
        (fun p => p.id == id) = 1) := by
  refine ⟨?_, ?_, ?_, ?_⟩
  · intro hany
    simp only [PentairDevice.update_program, hany, if_pos]
    rw [List.forall₂_map_right_iff, List.forall₂_same]
    intro p _
    constructor
    · intro hne
      simp [updateEntry, hne]
    · intro heq
      simp [updateEntry, heq]
  · intro hany
    simp only [PentairDevice.update_program, hany, Bool.false_eq_true,
      if_neg, not_false_eq_true, map_updateEntry_of_no_match _ _ _ _ _ hany]
  · by_cases hany : d.programs.any (fun p => p.id == id) = true
    · simp only [PentairDevice.update_program, hany, if_pos]
      have h2 : ((d.programs.map (updateEntry id name pt cv)).any
          (fun p => p.id == id)) = true := by
        rw [any_map_updateEntry]; exact hany
      simp only [h2, if_pos, map_map_updateEntry]
    · have hany' : d.programs.any (fun p => p.id == id) = false := by
        simpa using hany
      simp only [PentairDevice.update_program, hany', Bool.false_eq_true,
        if_neg, not_false_eq_true,
        map_updateEntry_of_no_match _ _ _ _ _ hany']
      have h2 : ((d.programs ++ [mkProgram id name pt cv]).any
          (fun p => p.id == id)) = true := by
        simp [List.any_append, mkProgram]
      simp only [h2, if_pos, List.map_append,
        map_updateEntry_of_no_match _ _ _ _ _ hany', List.map_cons,
        List.map_nil, updateEntry_mkProgram]
  · intro hle
    by_cases hany : d.programs.any (fun p => p.id == id) = true
    · simp only [PentairDevice.update_program, hany, if_pos,
        countP_map_updateEntry]
      have hpos : 0 < d.programs.countP (fun p => p.id == id) := by
        rw [List.countP_pos_iff]
        simpa using hany
      omega
    · have hany' : d.programs.any (fun p => p.id == id) = false := by
        simpa using hany
      simp only [PentairDevice.update_program, hany', Bool.false_eq_true,
        if_neg, not_false_eq_true,
        map_updateEntry_of_no_match _ _ _ _ _ hany', List.countP_append]
      have h0 : d.programs.countP (fun p => p.id == id) = 0 := by
        rw [List.countP_eq_zero]
        intro a ha
        have := List.any_eq_false.mp hany' a ha
        simpa using this
      simp [h0, mkProgram]

/-- Witness for C9: upserting slot 2 (present in the sample registry)
overwrites it in place; upserting slot 5 (absent) appends; both runs are
idempotent and end with exactly one entry for the upserted identity. -/
theorem update_program_upsert_by_identity_witness :
    (let d := { mkDevice "d1" "Pool" with
                  programs := [mkProgram 2 "Pool Med" 2 0] }
     List.Forall₂ (fun p q =>
        (p.id ≠ 2 → q = p) ∧
        (p.id = 2 → q = { p with name := "Med", program_type := 2,
                                 control_value := 3,
                                 running := (3 : Int) == 3 }))
        d.programs (d.update_program 2 "Med" 2 3).programs) ∧
    (let d := { mkDevice "d1" "Pool" with
                  programs := [mkProgram 2 "Pool Med" 2 0] }
     (d.update_program 5 "New" 2 0).programs =
       d.programs ++ [mkProgram 5 "New" 2 0] ∧
     (d.update_program 5 "New" 2 0).programs.countP
       (fun p => p.id == 5) = 1) :=
  ⟨(update_program_upsert_by_identity
      { mkDevice "d1" "Pool" with programs := [mkProgram 2 "Pool Med" 2 0] }
      2 "Med" 2 3).1 rfl,
   (update_program_upsert_by_identity
      { mkDevice "d1" "Pool" with programs := [mkProgram 2 "Pool Med" 2 0] }
      5 "New" 2 0).2.1 rfl,
   (update_program_upsert_by_identity
      { mkDevice "d1" "Pool" with programs := [mkProgram 2 "Pool Med" 2 0] }
      5 "New" 2 0).2.2.2 (by decide)⟩

/-- Decoding one response entry into the registry keeps per-device-id
entry counts: devices are rewritten in place, never added or removed. -/
lemma countP_id_decode_step (did x : String) (f : DeviceFields) :
    ∀ devs : List PentairDevice,
      (devs.map (fun d =>
        if d.pentair_device_id == did then decodeDevice f d else d)).countP
          (fun d => d.pentair_device_id == x) =
        devs.countP (fun d => d.pentair_device_id == x) := by
  intro devs
  induction devs with
  | nil => rfl
  | cons y ys ih =>
    simp only [List.map_cons, List.countP_cons, ih]
    by_cases hy : (y.pentair_device_id == did) = true
    · simp [hy, decodeDevice_keeps_id]
    · simp [hy]

/-- Applying a whole status response keeps per-device-id entry counts. -/
lemma countP_id_applyStatus (x : String) (resp : StatusResponse) :
    ∀ devs : List PentairDevice,
      (applyStatus devs resp).countP (fun d => d.pentair_device_id == x) =
        devs.countP (fun d => d.pentair_device_id == x) := by
  induction resp with
  | nil => intro devs; rfl
  | cons entry rest ih =>
    intro devs
    have h1 := countP_id_decode_step entry.1 x entry.2 devs
    have h2 := ih (devs.map (fun d =>
      if d.pentair_device_id == entry.1 then decodeDevice entry.2 d else d))
    exact h2.trans h1

/-- A status update keeps the token and per-device-id entry counts. -/
lemma update_status_keeps_count (st : HubState) (now : Int)
    (r : StatusResponse) (x : String) :
    (update_pentair_devices_status st now r).1.aws_token = st.aws_token ∧
    (update_pentair_devices_status st now r).1.devices.countP
        (fun d => d.pentair_device_id == x) =
      st.devices.countP (fun d => d.pentair_device_id == x) := by
  rcases hlu : st.last_update with _ | lu
  · rcases htok : st.aws_token with _ | t
    · simp [update_pentair_devices_status, hlu, htok]
    · simp [update_pentair_devices_status, hlu, htok, countP_id_applyStatus]
  · by_cases hgt : (60 : Int) < now - lu
    · rcases htok : st.aws_token with _ | t
      · simp [update_pentair_devices_status, hlu, htok, hgt]
      · simp [update_pentair_devices_status, hlu, htok, hgt,
          countP_id_applyStatus]
    · simp [update_pentair_devices_status, hlu, hgt]

/-- One discovery run keeps the token and adds, to the per-device-id
count, exactly the count contributed by the freshly appended matches. -/
lemma populate_count (st : HubState) (t : String) (h : st.aws_token = some t)
    (listing : List ListedDevice) (now : Int) (r : StatusResponse) (x : String) :
    (populate_pentair_devices st listing now r).aws_token = some t ∧
    (populate_pentair_devices st listing now r).devices.countP
        (fun dev => dev.pentair_device_id == x) =
      st.devices.countP (fun dev => dev.pentair_device_id == x) +
        ((listing.filter (fun d =>
            d.deviceType == "IF31" && d.status == "ACTIVE")).map
          (fun d => mkDevice d.deviceId d.nickName)).countP
            (fun dev => dev.pentair_device_id == x) := by
  have hk := update_status_keeps_count
    { aws_token := some t, last_update := st.last_update,
      devices := st.devices ++
        ((listing.filter (fun d =>
            d.deviceType == "IF31" && d.status == "ACTIVE")).map
          (fun d => mkDevice d.deviceId d.nickName)) } now r x
  simp only [populate_pentair_devices, h]
  refine ⟨hk.1, hk.2.trans ?_⟩
  simp [List.countP_append]

/-- C10: device discovery only appends, so a second run duplicates
every matching device: after running `populate_pentair_devices` twice
over a listing containing a matching (type IF31, status ACTIVE) device,
the registry holds at least two entries with that device id. -/
theorem discovery_appends_duplicate_devices (st : HubState) (t : String)
    (h : st.aws_token = some t) (listing : List ListedDevice)
    (d : ListedDevice) (hmem : d ∈ listing) (htype : d.deviceType = "IF31")
    (hstat : d.status = "ACTIVE") (now1 now2 : Int) (r1 r2 : StatusResponse) :
    2 ≤ (populate_pentair_devices
          (populate_pentair_devices st listing now1 r1) listing now2 r2).devices.countP
            (fun dev => dev.pentair_device_id == d.deviceId) := by
  have hone : 1 ≤ ((listing.filter (fun e =>
      e.deviceType == "IF31" && e.status == "ACTIVE")).map
        (fun e => mkDevice e.deviceId e.nickName)).countP
          (fun dev => dev.pentair_device_id == d.deviceId) := by
    have hd : d ∈ listing.filter (fun e =>
        e.deviceType == "IF31" && e.status == "ACTIVE") :=
      List.mem_filter.mpr ⟨hmem, by simp [htype, hstat]⟩
    have hmm : mkDevice d.deviceId d.nickName ∈ (listing.filter (fun e =>
        e.deviceType == "IF31" && e.status == "ACTIVE")).map
          (fun e => mkDevice e.deviceId e.nickName) :=
      List.mem_map.mpr ⟨d, hd, rfl⟩
    have hpos : 0 < ((listing.filter (fun e =>
        e.deviceType == "IF31" && e.status == "ACTIVE")).map
          (fun e => mkDevice e.deviceId e.nickName)).countP
            (fun dev => dev.pentair_device_id == d.deviceId) :=
      List.countP_pos_iff.mpr ⟨mkDevice d.deviceId d.nickName, hmm,
        by simp [mkDevice]⟩
    omega
  have h1 := populate_count st t h listing now1 r1 d.deviceId
  have h2 := populate_count (populate_pentair_devices st listing now1 r1) t
    h1.1 listing now2 r2 d.deviceId
  omega

/-- Witness for C10: discovering the same one-device listing twice
leaves two registry entries with device id d9. -/
theorem discovery_appends_duplicate_devices_witness :
    2 ≤ (populate_pentair_devices
          (populate_pentair_devices sampleHub [⟨"IF31", "ACTIVE", "d9", "Spa"⟩]
            1000 [])
          [⟨"IF31", "ACTIVE", "d9", "Spa"⟩] 2000 []).devices.countP
            (fun dev => dev.pentair_device_id == "d9") :=
  discovery_appends_duplicate_devices sampleHub "tok" rfl
    [⟨"IF31", "ACTIVE", "d9", "Spa"⟩] ⟨"IF31", "ACTIVE", "d9", "Spa"⟩
    (by simp) rfl rfl 1000 2000 [] []

/-- C6 (divergence witness): the command operations carry no success
boolean at all. Both `activate_program_concurrent` and
`deactivate_program` are annotated `-> None` and contain no `return`
statement, so the value a caller receives is Python `None` on every
input — including a response carrying the success code — never `True`
or `False`. -/
theorem set_program_returns_no_boolean (st : HubState) (did : String)
    (pid : Int) (resp : PutResponse) :
    (activate_program_concurrent st did pid resp).2 = none ∧
    (deactivate_program st did pid resp).2 = none := by
  cases htok : st.aws_token <;> cases resp <;>
    simp only [activate_program_concurrent, deactivate_program, htok] <;>
    constructor <;> first | trivial | (split <;> rfl)

end PentairCloud
